import Mathlib

set_option autoImplicit false
set_option maxRecDepth 8000

/-!
Shallow embedding of the sakthis4/s4c-wrapper repository
(src/app.py and src/auth.py).

Upstream HTTP exchanges are modelled as oracle values supplied in an
environment: each `requests.get` the code performs corresponds to one
prepared outcome, where `Except.error` stands for a raised
`requests.RequestException` and `Except.ok` for a completed response with a
status code, a parsed JSON body and the raw text.  Python dictionary
lookups become `Option` fields, Python numeric coercions become explicit
functions on an upstream scalar-value type, and `datetime` becomes a
record of calendar fields with explicit proleptic-Gregorian arithmetic.
-/

/-- Upstream JSON scalar values as far as the code distinguishes them:
null, numbers (modelled as rationals) and strings. -/
inductive UpVal where
  | vnull : UpVal
  | vnum : Rat → UpVal
  | vstr : String → UpVal
deriving DecidableEq, Repr

/-- Python truthiness of an `UpVal`: `None`, `0` and `""` are falsy. -/
def UpVal.truthy : UpVal → Bool
  | UpVal.vnull => false
  | UpVal.vnum q => if q = 0 then false else true
  | UpVal.vstr s => if s = "" then false else true

/-- Python truthiness of an optional upstream value; a missing key
(`dict.get` returning `None`) is falsy. -/
def truthyOpt : Option UpVal → Bool
  | none => false
  | some v => v.truthy

/-- Python truthiness of an optional string. -/
def truthyStr : Option String → Bool
  | none => false
  | some s => if s = "" then false else true

/-- Split off the longest leading run of at most `n` digit characters. -/
def grabDigits : Nat → List Char → List Char × List Char
  | 0, cs => ([], cs)
  | _ + 1, [] => ([], [])
  | n + 1, c :: cs =>
    if c.isDigit then
      let p := grabDigits n cs
      (c :: p.1, p.2)
    else ([], c :: cs)

/-- Split off the longest leading digit run. -/
def grabAllDigits : List Char → List Char × List Char
  | [] => ([], [])
  | c :: cs =>
    if c.isDigit then
      let p := grabAllDigits cs
      (c :: p.1, p.2)
    else ([], c :: cs)

/-- Numeric value of a list of digit characters. -/
def natOfDigits (ds : List Char) : Nat :=
  ds.foldl (fun a c => a * 10 + (c.toNat - 48)) 0

/-- Models Python `float()` on the plain decimal strings the upstream
uses: optional sign, integer digits, optional fractional part.  Any other
string fails, and the caller's try/except then defaults the value. -/
def parseDecimal (s : String) : Option Rat :=
  let go : List Char → Option Rat := fun cs =>
    let ip := grabAllDigits cs
    match ip.2 with
    | [] => if ip.1.isEmpty then none else some ((natOfDigits ip.1 : Int) : Rat)
    | c :: rest =>
      if c = '.' then
        let fp := grabAllDigits rest
        if fp.2.isEmpty && !(ip.1.isEmpty && fp.1.isEmpty) then
          some ((natOfDigits ip.1 : Rat) + mkRat (natOfDigits fp.1) (10 ^ fp.1.length))
        else none
      else none
  match s.toList with
  | [] => none
  | c :: cs =>
    if c = '-' then (go cs).map (fun q => -q)
    else if c = '+' then go cs
    else go (c :: cs)

/-- Models Python `int()` on strings: optional sign then digits only. -/
def parseIntString (s : String) : Option Int :=
  let go : List Char → Option Nat := fun cs =>
    let p := grabAllDigits cs
    if p.2.isEmpty && !p.1.isEmpty then some (natOfDigits p.1) else none
  match s.toList with
  | [] => none
  | c :: cs =>
    if c = '-' then (go cs).map (fun n => -(n : Int))
    else if c = '+' then (go cs).map (fun n => (n : Int))
    else (go (c :: cs)).map (fun n => (n : Int))

/-- The coercion performed by `float(unit.get('score', 0))` together with
its try/except defaulting to `0` (app.py lines 269-273): numbers pass
through, `None` raises `TypeError` and unparseable strings raise
`ValueError`, both caught and replaced by `0`. -/
def pyFloat : UpVal → Rat
  | UpVal.vnum q => q
  | UpVal.vnull => 0
  | UpVal.vstr s => (parseDecimal s).getD 0

/-- The coercion performed by `int(session.get('duration_minutes', '0'))`
with its try/except defaulting to `0` (app.py lines 131-134); `int()` on a
number truncates toward zero and never raises. -/
def pyInt : UpVal → Int
  | UpVal.vnum q => q.num.tdiv q.den
  | UpVal.vnull => 0
  | UpVal.vstr s => (parseIntString s).getD 0

/-- A proleptic-Gregorian timestamp: the fields of a Python `datetime`
that the code reads or renders. -/
structure DateTime where
  year : Nat
  month : Nat
  day : Nat
  hour : Nat
  minute : Nat
  second : Nat
deriving DecidableEq, Repr

/-- The `(year, month, day)` triple, Python `datetime.date()`. -/
def DateTime.date (t : DateTime) : Nat × Nat × Nat := (t.year, t.month, t.day)

/-- Gregorian leap-year test. -/
def isLeap (y : Nat) : Bool :=
  y % 4 = 0 && (!(y % 100 = 0) || y % 400 = 0)

/-- Length of a month. -/
def daysInMonth (y m : Nat) : Nat :=
  if m = 2 then (if isLeap y then 29 else 28)
  else if m = 4 ∨ m = 6 ∨ m = 9 ∨ m = 11 then 30
  else 31

/-- Day number of y-m-d counted from 0000-03-01 (valid on the year range
Python `datetime` accepts). -/
def daysFromCivil (y m d : Nat) : Nat :=
  let yy := if m ≤ 2 then y - 1 else y
  let era := yy / 400
  let yoe := yy % 400
  let mp := (m + 9) % 12
  let doy := (153 * mp + 2) / 5 + d - 1
  let doe := yoe * 365 + yoe / 4 - yoe / 100 + doy
  era * 146097 + doe

/-- Inverse of `daysFromCivil`. -/
def civilFromDays (n : Nat) : Nat × Nat × Nat :=
  let era := n / 146097
  let doe := n % 146097
  let yoe := (doe - doe / 1460 + doe / 36524 - doe / 146096) / 365
  let doy := doe - (365 * yoe + yoe / 4 - yoe / 100)
  let mp := (5 * doy + 2) / 153
  let d := doy - (153 * mp + 2) / 5 + 1
  let m := if mp < 10 then mp + 3 else mp - 9
  (if m ≤ 2 then era * 400 + yoe + 1 else era * 400 + yoe, m, d)

/-- Minutes from the calendar origin to this timestamp. -/
def toEpochMinutes (t : DateTime) : Int :=
  (daysFromCivil t.year t.month t.day : Int) * 1440 + t.hour * 60 + t.minute

/-- Python `datetime + timedelta(minutes := k)`; the seconds field is
unchanged by a whole-minute shift. -/
def addMinutes (t : DateTime) (k : Int) : DateTime :=
  let total := toEpochMinutes t + k
  let day := Int.fdiv total 1440
  let rem := (total - 1440 * day).toNat
  let c := civilFromDays day.toNat
  ⟨c.1, c.2.1, c.2.2, rem / 60, rem % 60, t.second⟩

/-- Python raises `OverflowError` when a shifted `datetime` leaves the
year range 1..9999; the code catches it in the same except-block as parse
failures (app.py line 147). -/
def endInRange (t : DateTime) (k : Int) : Bool :=
  (306 * 1440 : Int) ≤ toEpochMinutes t + k && (addMinutes t k).year ≤ 9999

/-- Construct a timestamp exactly when Python `datetime(...)` would accept
the fields. -/
def mkDateTime (y m d hh mi ss : Nat) : Option DateTime :=
  if 1 ≤ y ∧ y ≤ 9999 ∧ 1 ≤ m ∧ m ≤ 12 ∧ 1 ≤ d ∧ d ≤ daysInMonth y m ∧
      hh ≤ 23 ∧ mi ≤ 59 ∧ ss ≤ 59 then
    some ⟨y, m, d, hh, mi, ss⟩
  else none

/-- Read at most two digits whose value lies in `lo..hi` (the strptime
field patterns for day, month, hour, minute, second). -/
def parse2 (lo hi : Nat) (cs : List Char) : Option (Nat × List Char) :=
  let p := grabDigits 2 cs
  if p.1.isEmpty then none
  else
    let v := natOfDigits p.1
    if lo ≤ v ∧ v ≤ hi then some (v, p.2) else none

/-- Read exactly four digits (the strptime year pattern). -/
def parse4 (cs : List Char) : Option (Nat × List Char) :=
  let p := grabDigits 4 cs
  if p.1.length = 4 then some (natOfDigits p.1, p.2) else none

/-- Consume one expected literal character. -/
def expectChar (c : Char) : List Char → Option (List Char)
  | [] => none
  | x :: xs => if x = c then some xs else none

/-- Drop leading whitespace. -/
def dropWs : List Char → List Char
  | [] => []
  | c :: cs => if c.isWhitespace then dropWs cs else c :: cs

/-- Consume one or more whitespace characters (strptime compiles a space
in the format to a whitespace run). -/
def expectWs : List Char → Option (List Char)
  | [] => none
  | c :: cs => if c.isWhitespace then some (dropWs cs) else none

/-- strptime with format "%d/%m/%Y, %H:%M:%S" (app.py line 141); the
whole input must be consumed and the fields must form a real date. -/
def parseDMYSlash (s : String) : Option DateTime := do
  let (d, r1) ← parse2 1 31 s.toList
  let r2 ← expectChar '/' r1
  let (m, r3) ← parse2 1 12 r2
  let r4 ← expectChar '/' r3
  let (y, r5) ← parse4 r4
  let r6 ← expectChar ',' r5
  let r7 ← expectWs r6
  let (hh, r8) ← parse2 0 23 r7
  let r9 ← expectChar ':' r8
  let (mi, r10) ← parse2 0 59 r9
  let r11 ← expectChar ':' r10
  let (ss, r12) ← parse2 0 61 r11
  if r12.isEmpty then mkDateTime y m d hh mi ss else none

/-- strptime with format "%d-%m-%Y %H:%M:%S" (app.py lines 260-263), the
canonical format the normalizer itself produced. -/
def parseDMYDash (s : String) : Option DateTime := do
  let (d, r1) ← parse2 1 31 s.toList
  let r2 ← expectChar '-' r1
  let (m, r3) ← parse2 1 12 r2
  let r4 ← expectChar '-' r3
  let (y, r5) ← parse4 r4
  let r6 ← expectWs r5
  let (hh, r7) ← parse2 0 23 r6
  let r8 ← expectChar ':' r7
  let (mi, r9) ← parse2 0 59 r8
  let r10 ← expectChar ':' r9
  let (ss, r11) ← parse2 0 61 r10
  if r11.isEmpty then mkDateTime y m d hh mi ss else none

/-- strptime with format "%Y-%m-%d" (app.py line 231); only the calendar
date survives into the comparison. -/
def parseYMD (s : String) : Option (Nat × Nat × Nat) := do
  let (y, r1) ← parse4 s.toList
  let r2 ← expectChar '-' r1
  let (m, r3) ← parse2 1 12 r2
  let r4 ← expectChar '-' r3
  let (d, r5) ← parse2 1 31 r4
  if r5.isEmpty then (mkDateTime y m d 0 0 0).map DateTime.date else none

/-- Zero-pad to two digits. -/
def pad2 (n : Nat) : String := if n < 10 then "0" ++ toString n else toString n

/-- Zero-pad to four digits. -/
def pad4 (n : Nat) : String :=
  if n < 10 then "000" ++ toString n
  else if n < 100 then "00" ++ toString n
  else if n < 1000 then "0" ++ toString n
  else toString n

/-- strftime with format "%d-%m-%Y %H:%M:%S" (app.py lines 144-146). -/
def formatDT (t : DateTime) : String :=
  pad2 t.day ++ "-" ++ pad2 t.month ++ "-" ++ pad4 t.year ++ " " ++
    pad2 t.hour ++ ":" ++ pad2 t.minute ++ ":" ++ pad2 t.second

/-- Raw upstream session record from `getiltsessions` (the fields the
code reads; a non-string start value behaves like an unparseable one). -/
structure RawSession where
  name : Option String
  description : Option String
  start_date : Option String
  duration_minutes : Option UpVal
deriving DecidableEq, Repr

/-- The simplified session dict built by `get_ilt_sessions_by_id`. -/
structure SimplifiedSession where
  attendance : Option String
  session_name : Option String
  session_description : Option String
  start_date : Option String
  end_date : Option String
  duration_minutes : Int
deriving DecidableEq, Repr

/-- Per-session body of the loop in `get_ilt_sessions_by_id` (app.py
lines 128-160): coerce the duration, and when the start string is truthy
try the single format "%d/%m/%Y, %H:%M:%S"; on success render start and
start+duration in the canonical format, on any failure (including a
shifted date leaving the representable year range) both rendered dates
are `None` and only a diagnostic is printed. -/
def processSession (s : RawSession) : SimplifiedSession :=
  let duration := pyInt ((s.duration_minutes).getD (UpVal.vstr "0"))
  match s.start_date with
  | none => ⟨none, s.name, s.description, none, none, duration⟩
  | some sd =>
    if sd = "" then ⟨none, s.name, s.description, none, none, duration⟩
    else
      match parseDMYSlash sd with
      | none => ⟨none, s.name, s.description, none, none, duration⟩
      | some dt =>
        if endInRange dt duration then
          ⟨none, s.name, s.description, some (formatDT dt),
            some (formatDT (addMinutes dt duration)), duration⟩
        else ⟨none, s.name, s.description, none, none, duration⟩

/-- A completed upstream HTTP exchange: status code, parsed JSON body and
raw response text. -/
structure Resp (β : Type) where
  status : Nat
  body : β
  text : String

/-- Python `str()` of an id value as interpolated into message strings. -/
def pyStr : Option UpVal → String
  | none => "None"
  | some UpVal.vnull => "None"
  | some (UpVal.vstr s) => s
  | some (UpVal.vnum q) =>
    if q.den = 1 then toString q.num else toString q.num ++ "/" ++ toString q.den

/-- `get_ilt_sessions_by_id` (app.py lines 106-165).  The network outcome
is the oracle argument; `Sum.inl` is the string channel the code uses for
every error and no-data message, `Sum.inr` the simplified session list. -/
def get_ilt_sessions_by_id (resp : Except String (Resp (List RawSession)))
    (ilt_id : Option UpVal) : Sum String (List SimplifiedSession) :=
  match resp with
  | Except.error e => Sum.inl ("An error occurred: " ++ e)
  | Except.ok r =>
    if r.status = 401 then Sum.inl "Invalid API Key. Please provide a valid API Key."
    else if r.status = 404 then
      Sum.inl ("No ILT sessions found for ILT ID \x27" ++ pyStr ilt_id ++ "\x27.")
    else if r.status ≠ 200 then
      Sum.inl ("Error fetching ILT sessions: " ++ toString r.status ++ ", " ++ r.text)
    else if r.body.isEmpty then
      Sum.inl ("No sessions available for ILT ID \x27" ++ pyStr ilt_id ++ "\x27.")
    else Sum.inr (r.body.map processSession)

/-- Body of the user-lookup response. -/
structure UserBody where
  id : Option UpVal
deriving DecidableEq, Repr

/-- One element of the course-lookup response array. -/
structure CourseBody where
  id : Option UpVal
deriving DecidableEq, Repr

/-- One element of the `units` array of `getuserstatusincourse`. -/
structure UnitJson where
  uid : Option UpVal
  uname : Option String
  utype : Option String
  completion_status : Option String
  score : Option UpVal
deriving DecidableEq, Repr

/-- Body of the `getuserstatusincourse` response. -/
structure StatusBody where
  units : Option (List UnitJson)
deriving DecidableEq, Repr

/-- The dict built per training unit by `fetch_instructor_led_training`
(app.py lines 90-99).  A JSON null stored under `completion_status` or
`score` is modelled like the absent key: both compare unequal to
"Completed" and both coerce to score 0 downstream, so the distinction is
unobservable. -/
structure UnitDict where
  id : Option UpVal
  name : Option String
  completion_status : String
  score : UpVal
deriving DecidableEq, Repr

/-- The upstream oracle: one prepared outcome per call the code makes,
with the session fetch keyed by the unit id it is invoked with. -/
structure LMS where
  userResp : Except String (Resp UserBody)
  courseResp : Except String (Resp (List CourseBody))
  statusResp : Except String (Resp StatusBody)
  sessionsResp : Option UpVal → Except String (Resp (List RawSession))

/-- `fetch_instructor_led_training` (app.py lines 33-104): `Sum.inl` is
the string channel (errors and no-data messages alike), `Sum.inr` the
list of instructor-led training unit dicts. -/
def fetch_instructor_led_training (lms : LMS) (student_id batch_id : String) :
    Sum String (List UnitDict) :=
  match lms.userResp with
  | Except.error e => Sum.inl ("An error occurred: " ++ e)
  | Except.ok ur =>
    if ur.status = 401 then Sum.inl "Invalid API Key. Please provide a valid API Key."
    else if ur.status = 404 then
      Sum.inl ("User with student_id \x27" ++ student_id ++ "\x27 not found.")
    else if ur.status ≠ 200 then
      Sum.inl ("Error fetching user details: " ++ toString ur.status ++ ", " ++ ur.text)
    else if !truthyOpt ur.body.id then
      Sum.inl "User ID not found for the provided student_id."
    else
      match lms.courseResp with
      | Except.error e => Sum.inl ("An error occurred: " ++ e)
      | Except.ok cr =>
        if cr.status = 404 then
          Sum.inl ("Course with batch ID \x27" ++ batch_id ++ "\x27 not found.")
        else if cr.status ≠ 200 then
          Sum.inl ("Error fetching course details: " ++ toString cr.status ++ ", " ++ cr.text)
        else
          match cr.body with
          | [] => Sum.inl ("No courses found for the batch ID \x27" ++ batch_id ++ "\x27.")
          | c0 :: _ =>
            if !truthyOpt c0.id then Sum.inl "Course ID not found for the provided batch ID."
            else
              match lms.statusResp with
              | Except.error e => Sum.inl ("An error occurred: " ++ e)
              | Except.ok sr =>
                if sr.status ≠ 200 then
                  Sum.inl ("Error fetching user status in course: " ++
                    toString sr.status ++ ", " ++ sr.text)
                else
                  let ilt := ((sr.body.units.getD []).filter
                      (fun u => u.utype == some "Instructor-led training")).map
                    (fun u => UnitDict.mk u.uid u.uname
                      (u.completion_status.getD "Failed") (u.score.getD (UpVal.vnum 0)))
                  if ilt.isEmpty then Sum.inl "No \x27Instructor-led training\x27 units found."
                  else Sum.inr ilt

/-- The externally visible attendance record (app.py lines 276-284). -/
structure AttendanceRecord where
  org_emp_code : String
  attendance : String
  session_name : Option String
  session_description : Option String
  in_time : Option String
  out_time : Option String
  duration_minutes : Int
deriving DecidableEq, Repr

/-- The attendance verdict (app.py line 278). -/
def attendanceVerdict (u : UnitDict) : String :=
  if u.completion_status = "Completed" ∧ 50 < pyFloat u.score then "Passed" else "Failed"

/-- Blanking of failed records (app.py lines 286-290). -/
def blankIfFailed (r : AttendanceRecord) : AttendanceRecord :=
  if r.attendance = "Failed" then
    { r with duration_minutes := 0, in_time := none, out_time := none }
  else r

/-- Body of the per-session filter loop in `get_data` (app.py lines
257-295): parse the canonical start date (a `None` start raises
`TypeError`, an unparseable one `ValueError`, both caught by skipping the
session), keep the session exactly when its calendar date equals the
requested one, attach the verdict and blank failed records. -/
def sessionRecord (student_id : String) (fd : Nat × Nat × Nat) (u : UnitDict)
    (s : SimplifiedSession) : Option AttendanceRecord :=
  match s.start_date with
  | none => none
  | some sd =>
    match parseDMYDash sd with
    | none => none
    | some dt =>
      if dt.date = fd then
        some (blankIfFailed ⟨student_id, attendanceVerdict u, s.session_name,
          s.session_description, s.start_date, s.end_date, s.duration_minutes⟩)
      else none

/-- Per-unit contribution to `sessions_data` in `get_data` (app.py lines
248-296): a string result from the per-unit session fetch contributes
nothing and is otherwise ignored. -/
def unitRecords (lms : LMS) (student_id : String) (fd : Nat × Nat × Nat)
    (u : UnitDict) : List AttendanceRecord :=
  match get_ilt_sessions_by_id (lms.sessionsResp u.id) u.id with
  | Sum.inl _ => []
  | Sum.inr sess => sess.filterMap (sessionRecord student_id fd u)

/-- The inbound request to `/api/attendance/daily`: header and query
parameters as the code reads them. -/
structure Request where
  api_key : Option String
  org_emp_code : Option String
  batch_id : Option String
  attendanceDate : Option String
deriving DecidableEq, Repr

/-- The execution environment of `get_data`: the key-store lookup and the
upstream oracle. -/
structure Env where
  customers : String → Option String
  lms : LMS

/-- Observable outcome of `get_data`: an error response with an HTTP
status and the message placed in the error field, or a success response
whose Successattendance field is either a no-data message or the record
list. -/
inductive ApiResult where
  | err (status : Nat) (message : String)
  | ok (body : Sum String (List AttendanceRecord))
deriving DecidableEq, Repr

/-- `get_data` (app.py lines 201-309), the attendance resolver. -/
def get_data (env : Env) (req : Request) : ApiResult :=
  if !truthyStr req.api_key then ApiResult.err 401 "No API key provided"
  else if !truthyStr (env.customers (req.api_key.getD "")) then
    ApiResult.err 401 "Invalid API key"
  else if !(truthyStr req.org_emp_code && truthyStr req.batch_id &&
      truthyStr req.attendanceDate) then
    ApiResult.err 400 "Missing required parameters"
  else
    match parseYMD (req.attendanceDate.getD "") with
    | none => ApiResult.err 400 "Invalid date format. Please use YYYY-MM-DD format"
    | some fd =>
      match fetch_instructor_led_training env.lms (req.org_emp_code.getD "")
          (req.batch_id.getD "") with
      | Sum.inl msg => ApiResult.err 400 msg
      | Sum.inr units =>
        if ((units.map (unitRecords env.lms (req.org_emp_code.getD "") fd)).join).isEmpty then
          ApiResult.ok (Sum.inl ("No ILT sessions found for date " ++
            req.attendanceDate.getD ""))
        else
          ApiResult.ok (Sum.inr
            ((units.map (unitRecords env.lms (req.org_emp_code.getD "") fd)).join))

/-- A row of the `api_keys` table (auth.py lines 16-24); the autoincrement
id and timestamp are never read, `is_active` defaults to 1 on insert. -/
structure KeyRow where
  customer_id : String
  api_key : String
  is_active : Bool
deriving DecidableEq, Repr

/-- Whether the UNIQUE column already holds this key. -/
def hasKey (db : List KeyRow) (k : String) : Bool :=
  db.any (fun r => r.api_key == k)

/-- `APIKeyManager.generate_api_key` (auth.py lines 29-49): the successive
draws of `secrets.choice` are modelled as a supplied stream of candidate
keys; an `IntegrityError` on the UNIQUE api_key column retries with the
next candidate, and a successful insert appends the new active row. -/
def generate_api_key (customer_id : String) :
    List String → List KeyRow → Option (String × List KeyRow)
  | [], _ => none
  | k :: rest, db =>
    if hasKey db k then generate_api_key customer_id rest db
    else some (k, db ++ [⟨customer_id, k, true⟩])

/-- `APIKeyManager.verify_api_key` (auth.py lines 51-64):
`bool(result and result[0])` on the first row matching the key. -/
def verify_api_key (db : List KeyRow) (k : String) : Bool :=
  match db.find? (fun r => r.api_key == k) with
  | some r => r.is_active
  | none => false

/-- `APIKeyManager.get_customer_id` (auth.py lines 66-79). -/
def get_customer_id (db : List KeyRow) (k : String) : Option String :=
  match db.find? (fun r => r.api_key == k && r.is_active) with
  | some r => some r.customer_id
  | none => none

/-- Example key store: one active key. -/
def exCustomers : String → Option String :=
  fun k => if k = "KEY" then some "CUST" else none

/-- Example unit json: completed with score 75 (passes). -/
def uP : UnitJson :=
  ⟨some (UpVal.vstr "T1"), some "ILT Unit", some "Instructor-led training",
    some "Completed", some (UpVal.vnum 75)⟩

/-- Example unit json: completed with boundary score 50 (fails). -/
def uF : UnitJson :=
  ⟨some (UpVal.vstr "T2"), some "ILT Unit 2", some "Instructor-led training",
    some "Completed", some (UpVal.vnum 50)⟩

/-- Example unit json of another type, discarded by the filter. -/
def uE : UnitJson :=
  ⟨some (UpVal.vstr "T3"), some "Elearn", some "E-learning",
    some "Completed", some (UpVal.vnum 99)⟩

/-- Example raw session: 2024-12-25 14:30 for 90 minutes. -/
def rawS : RawSession :=
  ⟨some "Morning", some "Desc", some "25/12/2024, 14:30:00", some (UpVal.vstr "90")⟩

/-- The simplified session the normalizer produces from `rawS`. -/
def simpS : SimplifiedSession :=
  ⟨none, some "Morning", some "Desc", some "25-12-2024 14:30:00",
    some "25-12-2024 16:00:00", 90⟩

/-- The unit dict built from `uP`. -/
def udP : UnitDict :=
  ⟨some (UpVal.vstr "T1"), some "ILT Unit", "Completed", UpVal.vnum 75⟩

/-- The unit dict built from `uF`. -/
def udF : UnitDict :=
  ⟨some (UpVal.vstr "T2"), some "ILT Unit 2", "Completed", UpVal.vnum 50⟩

/-- The passed attendance record for student S1 in the example. -/
def recP : AttendanceRecord :=
  ⟨"S1", "Passed", some "Morning", some "Desc", some "25-12-2024 14:30:00",
    some "25-12-2024 16:00:00", 90⟩

/-- The failed attendance record (boundary score 50, blanked). -/
def recFblank : AttendanceRecord :=
  ⟨"S1", "Failed", some "Morning", some "Desc", none, none, 0⟩

/-- Baseline upstream oracle: every lookup succeeds. -/
def lmsEx : LMS :=
  ⟨Except.ok ⟨200, ⟨some (UpVal.vstr "U1")⟩, ""⟩,
   Except.ok ⟨200, [⟨some (UpVal.vstr "C1")⟩], ""⟩,
   Except.ok ⟨200, ⟨some [uP, uF, uE]⟩, ""⟩,
   fun _ => Except.ok ⟨200, [rawS], ""⟩⟩

/-- Baseline environment. -/
def envEx : Env := ⟨exCustomers, lmsEx⟩

/-- Baseline well-formed request. -/
def reqEx : Request := ⟨some "KEY", some "S1", some "B1", some "2024-12-25"⟩

/-- Oracle whose user lookup is rejected with status 401. -/
def lms401 : LMS := { lmsEx with userResp := Except.ok ⟨401, ⟨none⟩, "unauth"⟩ }

/-- Oracle whose course lookup is rejected with status 401. -/
def lmsC401 : LMS := { lmsEx with courseResp := Except.ok ⟨401, [], "unauth"⟩ }

/-- Oracle whose session fetch for unit T1 is rejected with status 401
while the fetch for other units succeeds. -/
def lmsS401 : LMS :=
  { lmsEx with sessionsResp := fun v =>
      if v = some (UpVal.vstr "T1") then Except.ok ⟨401, [], "unauth"⟩
      else Except.ok ⟨200, [rawS], ""⟩ }

/-- Oracle whose course-status lookup yields no instructor-led units. -/
def lmsNoU : LMS := { lmsEx with statusResp := Except.ok ⟨200, ⟨some [uE]⟩, ""⟩ }

/-- Oracle whose session fetch for unit T1 raises a transport error while
the fetch for other units succeeds. -/
def lmsBoom : LMS :=
  { lmsEx with sessionsResp := fun v =>
      if v = some (UpVal.vstr "T1") then Except.error "boom"
      else Except.ok ⟨200, [rawS], ""⟩ }

/-- A session-fetch oracle that would fail if it were ever consulted. -/
def fNever : Option UpVal → Except String (Resp (List RawSession)) :=
  fun _ => Except.error "unreached"

/-- Oracle whose user lookup succeeds with the falsy id 0. -/
def lmsZeroId : LMS :=
  { lmsEx with userResp := Except.ok ⟨200, ⟨some (UpVal.vnum 0)⟩, ""⟩ }

/-- Oracle whose course lookup succeeds with an empty-string first course
id. -/
def lmsEmptyCourseId : LMS :=
  { lmsEx with courseResp := Except.ok ⟨200, [⟨some (UpVal.vstr "")⟩], ""⟩ }

/-- Oracle whose course-status lookup is rejected with status 401. -/
def lmsSt401 : LMS :=
  { lmsEx with statusResp := Except.ok ⟨401, ⟨none⟩, "unauth"⟩ }

/-- The verdict is the string "Passed" exactly under the conjunction the
code tests. -/
theorem attendanceVerdict_eq_passed (u : UnitDict) :
    attendanceVerdict u = "Passed" ↔
      (u.completion_status = "Completed" ∧ 50 < pyFloat u.score) := by
  unfold attendanceVerdict
  split
  · next hc => simp [hc]
  · next hc => simp [hc]

/-- The verdict is one of the two literal strings. -/
theorem attendanceVerdict_cases (u : UnitDict) :
    attendanceVerdict u = "Passed" ∨ attendanceVerdict u = "Failed" := by
  unfold attendanceVerdict
  split
  · exact Or.inl rfl
  · exact Or.inr rfl

/-- Blanking does not change the verdict. -/
theorem blankIfFailed_attendance (r : AttendanceRecord) :
    (blankIfFailed r).attendance = r.attendance := by
  unfold blankIfFailed
  split
  · rfl
  · rfl

/-- A blanked failed record carries no time evidence. -/
theorem blankIfFailed_failed (r : AttendanceRecord)
    (h : (blankIfFailed r).attendance = "Failed") :
    (blankIfFailed r).in_time = none ∧ (blankIfFailed r).out_time = none ∧
      (blankIfFailed r).duration_minutes = 0 := by
  unfold blankIfFailed at h ⊢
  split at h
  · next hf => simp [hf]
  · next hf => exact absurd h hf

/-- Inversion of the per-session filter body: a kept record determines a
parsed start whose calendar date is the requested one, and equals the
blanked verdict-carrying record. -/
theorem sessionRecord_eq_some {sid : String} {fd : Nat × Nat × Nat}
    {u : UnitDict} {s : SimplifiedSession} {r : AttendanceRecord}
    (h : sessionRecord sid fd u s = some r) :
    ∃ sd dt, s.start_date = some sd ∧ parseDMYDash sd = some dt ∧
      dt.date = fd ∧
      r = blankIfFailed ⟨sid, attendanceVerdict u, s.session_name,
        s.session_description, s.start_date, s.end_date, s.duration_minutes⟩ := by
  unfold sessionRecord at h
  split at h
  · exact absurd h (by simp)
  next sd hss =>
    split at h
    · exact absurd h (by simp)
    next dt hp =>
      split at h
      · next hd =>
          exact ⟨sd, dt, hss, hp, hd, (Option.some.inj h).symm⟩
      · exact absurd h (by simp)

/-- A session whose start is absent or unparseable is dropped. -/
theorem sessionRecord_unparseable (sid : String) (fd : Nat × Nat × Nat)
    (u : UnitDict) (s : SimplifiedSession)
    (h : s.start_date = none ∨
      ∃ sd, s.start_date = some sd ∧ parseDMYDash sd = none) :
    sessionRecord sid fd u s = none := by
  unfold sessionRecord
  rcases h with h | ⟨sd, hs, hp⟩
  · rw [h]
  · rw [hs]
    simp only [hp]

/-- Inversion of the resolver: a success payload carrying records can only
come from the final aggregation branch. -/
theorem get_data_ok_records {env : Env} {req : Request}
    {recs : List AttendanceRecord}
    (h : get_data env req = ApiResult.ok (Sum.inr recs)) :
    ∃ fd units, parseYMD (req.attendanceDate.getD "") = some fd ∧
      fetch_instructor_led_training env.lms (req.org_emp_code.getD "")
        (req.batch_id.getD "") = Sum.inr units ∧
      recs = (units.map (unitRecords env.lms (req.org_emp_code.getD "") fd)).join := by
  unfold get_data at h
  split at h
  · exact absurd h (by simp)
  split at h
  · exact absurd h (by simp)
  split at h
  · exact absurd h (by simp)
  split at h
  · exact absurd h (by simp)
  next fd hfd =>
    split at h
    · exact absurd h (by simp)
    next units hfetch =>
      split at h
      · exact absurd h (by simp)
      · exact ⟨fd, units, hfd, hfetch, (Sum.inr.inj (ApiResult.ok.inj h)).symm⟩

/-- A unit whose session fetch comes back on the string channel
contributes no records. -/
theorem unitRecords_of_fetch_msg (lms : LMS) (sid : String)
    (fd : Nat × Nat × Nat) (u : UnitDict) (e : String)
    (h : get_ilt_sessions_by_id (lms.sessionsResp u.id) u.id = Sum.inl e) :
    unitRecords lms sid fd u = [] := by
  unfold unitRecords
  rw [h]

/-- A 401 on the user lookup yields the invalid-key message. -/
theorem fetch_userResp_401 (lms : LMS) (sid bid : String) (ub : UserBody)
    (ut : String) (h : lms.userResp = Except.ok ⟨401, ub, ut⟩) :
    fetch_instructor_led_training lms sid bid =
      Sum.inl "Invalid API Key. Please provide a valid API Key." := by
  unfold fetch_instructor_led_training
  rw [h]
  rfl

/-- A 401 on the course lookup falls into the generic upstream-error
branch. -/
theorem fetch_courseResp_401 (lms : LMS) (sid bid : String) (ub : UserBody)
    (ut : String) (cb : List CourseBody) (ct : String)
    (hu : lms.userResp = Except.ok ⟨200, ub, ut⟩)
    (hid : truthyOpt ub.id = true)
    (hc : lms.courseResp = Except.ok ⟨401, cb, ct⟩) :
    fetch_instructor_led_training lms sid bid =
      Sum.inl ("Error fetching course details: 401, " ++ ct) := by
  unfold fetch_instructor_led_training
  rw [hu, hc]
  simp only [hid]
  rfl

/-- A 401 on the course-status lookup falls into the generic
upstream-error branch. -/
theorem fetch_statusResp_401 (lms : LMS) (sid bid : String) (ub : UserBody)
    (ut : String) (c0 : CourseBody) (crest : List CourseBody) (ct : String)
    (sb : StatusBody) (st : String)
    (hu : lms.userResp = Except.ok ⟨200, ub, ut⟩)
    (hid : truthyOpt ub.id = true)
    (hc : lms.courseResp = Except.ok ⟨200, c0 :: crest, ct⟩)
    (hcid : truthyOpt c0.id = true)
    (hs : lms.statusResp = Except.ok ⟨401, sb, st⟩) :
    fetch_instructor_led_training lms sid bid =
      Sum.inl ("Error fetching user status in course: 401, " ++ st) := by
  unfold fetch_instructor_led_training
  rw [hu, hc, hs]
  simp only [hid, hcid]
  rfl

/-- With successful lookups but no instructor-led unit after the type
filter, the fetch returns the no-units message on the string channel. -/
theorem fetch_no_units (lms : LMS) (sid bid : String) (ub : UserBody)
    (ut : String) (c0 : CourseBody) (crest : List CourseBody) (ct : String)
    (sb : StatusBody) (st : String)
    (hu : lms.userResp = Except.ok ⟨200, ub, ut⟩)
    (hid : truthyOpt ub.id = true)
    (hc : lms.courseResp = Except.ok ⟨200, c0 :: crest, ct⟩)
    (hcid : truthyOpt c0.id = true)
    (hs : lms.statusResp = Except.ok ⟨200, sb, st⟩)
    (hempty : (sb.units.getD []).filter
      (fun uj => uj.utype == some "Instructor-led training") = []) :
    fetch_instructor_led_training lms sid bid =
      Sum.inl "No \x27Instructor-led training\x27 units found." := by
  simp [fetch_instructor_led_training, hu, hid, hc, hcid, hs, hempty]

/-- With the request well-formed, a string result of the training fetch is
surfaced as a 400 error with that message. -/
theorem get_data_of_fetch_msg (env : Env) (req : Request)
    (fd : Nat × Nat × Nat) (msg : String)
    (h1 : truthyStr req.api_key = true)
    (h2 : truthyStr (env.customers (req.api_key.getD "")) = true)
    (h3 : truthyStr req.org_emp_code = true)
    (h4 : truthyStr req.batch_id = true)
    (h5 : truthyStr req.attendanceDate = true)
    (h6 : parseYMD (req.attendanceDate.getD "") = some fd)
    (h7 : fetch_instructor_led_training env.lms (req.org_emp_code.getD "")
      (req.batch_id.getD "") = Sum.inl msg) :
    get_data env req = ApiResult.err 400 msg := by
  unfold get_data
  rw [h1, h2, h3, h4, h5]
  simp only [h6, h7, Bool.not_true, Bool.and_true, Bool.false_eq_true,
    if_false, ite_false]

/-- With the request well-formed and the training fetch successful, the
response is the aggregation branch. -/
theorem get_data_of_fetch_units (env : Env) (req : Request)
    (fd : Nat × Nat × Nat) (units : List UnitDict)
    (h1 : truthyStr req.api_key = true)
    (h2 : truthyStr (env.customers (req.api_key.getD "")) = true)
    (h3 : truthyStr req.org_emp_code = true)
    (h4 : truthyStr req.batch_id = true)
    (h5 : truthyStr req.attendanceDate = true)
    (h6 : parseYMD (req.attendanceDate.getD "") = some fd)
    (h7 : fetch_instructor_led_training env.lms (req.org_emp_code.getD "")
      (req.batch_id.getD "") = Sum.inr units) :
    get_data env req =
      (if ((units.map (unitRecords env.lms (req.org_emp_code.getD "") fd)).join).isEmpty
       then ApiResult.ok (Sum.inl ("No ILT sessions found for date " ++
         req.attendanceDate.getD ""))
       else ApiResult.ok (Sum.inr
         ((units.map (unitRecords env.lms (req.org_emp_code.getD "") fd)).join))) := by
  unfold get_data
  rw [h1, h2, h3, h4, h5]
  simp only [h6, h7, Bool.not_true, Bool.and_true, Bool.false_eq_true,
    if_false, ite_false]

/-- Claim C1: for every kept session of a training unit, the attendance
verdict is "Passed" if and only if the unit's completion status equals
"Completed" and the unit's score (coerced to a number, defaulting to 0 on
invalid values) is strictly greater than 50; a score of exactly 50 yields
"Failed". -/
theorem attendance_passed_iff (sid : String) (fd : Nat × Nat × Nat)
    (u : UnitDict) (s : SimplifiedSession) (r : AttendanceRecord)
    (h : sessionRecord sid fd u s = some r) :
    (r.attendance = "Passed" ∨ r.attendance = "Failed") ∧
    (r.attendance = "Passed" ↔
      (u.completion_status = "Completed" ∧ 50 < pyFloat u.score)) ∧
    (pyFloat u.score = 50 → r.attendance = "Failed") ∧
    pyFloat UpVal.vnull = 0 ∧
    (∀ t, parseDecimal t = none → pyFloat (UpVal.vstr t) = 0) := by
  obtain ⟨sd, dt, hss, hp, hd, hr⟩ := sessionRecord_eq_some h
  have hatt : r.attendance = attendanceVerdict u := by
    rw [hr, blankIfFailed_attendance]
  refine ⟨?_, ?_, ?_, rfl, ?_⟩
  · rw [hatt]; exact attendanceVerdict_cases u
  · rw [hatt]; exact attendanceVerdict_eq_passed u
  · intro h50
    rw [hatt]
    rcases attendanceVerdict_cases u with hv | hv
    · exfalso
      have hc := (attendanceVerdict_eq_passed u).mp hv
      rw [h50] at hc
      exact lt_irrefl _ hc.2
    · exact hv
  · intro t ht
    simp [pyFloat, ht]

/-- Claim C2: every record in the output list whose attendance field is
"Failed" has null in and out times and zero duration, regardless of the
underlying session's actual schedule. -/
theorem failed_records_blanked (env : Env) (req : Request)
    (recs : List AttendanceRecord)
    (h : get_data env req = ApiResult.ok (Sum.inr recs)) :
    ∀ r ∈ recs, r.attendance = "Failed" →
      r.in_time = none ∧ r.out_time = none ∧ r.duration_minutes = 0 := by
  obtain ⟨fd, units, hfd, hfetch, hrecs⟩ := get_data_ok_records h
  intro r hr hf
  rw [hrecs, List.mem_join] at hr
  obtain ⟨l, hl, hrl⟩ := hr
  rw [List.mem_map] at hl
  obtain ⟨u, hu, hul⟩ := hl
  rw [← hul] at hrl
  unfold unitRecords at hrl
  cases hfs : get_ilt_sessions_by_id (env.lms.sessionsResp u.id) u.id with
  | inl e =>
    rw [hfs] at hrl
    simp at hrl
  | inr sess =>
    rw [hfs] at hrl
    simp only [List.mem_filterMap] at hrl
    obtain ⟨s, hs, hsr⟩ := hrl
    obtain ⟨sd, dt, hss, hp, hd, hr2⟩ := sessionRecord_eq_some hsr
    rw [hr2]
    exact blankIfFailed_failed _ (by rw [← hr2]; exact hf)

/-- Claim C3: every record in the returned list comes from a session whose
normalized start date parses and whose calendar date equals the requested
date (compared by calendar date only); sessions whose start date is absent
or fails to parse are dropped silently rather than failing the request. -/
theorem records_match_requested_date (env : Env) (req : Request)
    (recs : List AttendanceRecord)
    (h : get_data env req = ApiResult.ok (Sum.inr recs)) :
    (∀ r ∈ recs, ∃ fd units u sess s sd dt,
      parseYMD (req.attendanceDate.getD "") = some fd ∧
      fetch_instructor_led_training env.lms (req.org_emp_code.getD "")
        (req.batch_id.getD "") = Sum.inr units ∧
      u ∈ units ∧
      get_ilt_sessions_by_id (env.lms.sessionsResp u.id) u.id = Sum.inr sess ∧
      s ∈ sess ∧
      sessionRecord (req.org_emp_code.getD "") fd u s = some r ∧
      s.start_date = some sd ∧ parseDMYDash sd = some dt ∧ dt.date = fd) ∧
    (∀ sid fd u s, (s.start_date = none ∨
        ∃ sd, s.start_date = some sd ∧ parseDMYDash sd = none) →
      sessionRecord sid fd u s = none) := by
  constructor
  · intro r hr
    obtain ⟨fd, units, hfd, hfetch, hrecs⟩ := get_data_ok_records h
    rw [hrecs, List.mem_join] at hr
    obtain ⟨l, hl, hrl⟩ := hr
    rw [List.mem_map] at hl
    obtain ⟨u, hu, hul⟩ := hl
    rw [← hul] at hrl
    unfold unitRecords at hrl
    cases hfs : get_ilt_sessions_by_id (env.lms.sessionsResp u.id) u.id with
    | inl e =>
      rw [hfs] at hrl
      simp at hrl
    | inr sess =>
      rw [hfs] at hrl
      simp only [List.mem_filterMap] at hrl
      obtain ⟨s, hs, hsr⟩ := hrl
      obtain ⟨sd, dt, hss, hp, hd, hr2⟩ := sessionRecord_eq_some hsr
      exact ⟨fd, units, u, sess, s, sd, dt, hfd, hfetch, hu, hfs, hs, hsr, hss, hp, hd⟩
  · exact sessionRecord_unparseable

/-- Witness for C1 at the boundary: unit udF is completed with score
exactly 50 and the kept example session yields a "Failed" record. -/
theorem attendance_passed_iff_witness :
    (recFblank.attendance = "Passed" ∨ recFblank.attendance = "Failed") ∧
    (recFblank.attendance = "Passed" ↔
      (udF.completion_status = "Completed" ∧ 50 < pyFloat udF.score)) ∧
    (pyFloat udF.score = 50 → recFblank.attendance = "Failed") ∧
    pyFloat UpVal.vnull = 0 ∧
    (∀ t, parseDecimal t = none → pyFloat (UpVal.vstr t) = 0) :=
  attendance_passed_iff "S1" (2024, 12, 25) udF simpS recFblank (by rfl)

/-- Witness for C2 on the example environment: the failed boundary record
in the output is blanked. -/
theorem failed_records_blanked_witness :
    recFblank.in_time = none ∧ recFblank.out_time = none ∧
      recFblank.duration_minutes = 0 :=
  failed_records_blanked envEx reqEx [recP, recFblank] (by rfl) recFblank
    (by simp) rfl

/-- Witness for C3 on the example environment: the passed record traces
back to a session parsed to the requested calendar date. -/
theorem records_match_requested_date_witness :
    ∃ fd units u sess s sd dt,
      parseYMD (reqEx.attendanceDate.getD "") = some fd ∧
      fetch_instructor_led_training envEx.lms (reqEx.org_emp_code.getD "")
        (reqEx.batch_id.getD "") = Sum.inr units ∧
      u ∈ units ∧
      get_ilt_sessions_by_id (envEx.lms.sessionsResp u.id) u.id = Sum.inr sess ∧
      s ∈ sess ∧
      sessionRecord (reqEx.org_emp_code.getD "") fd u s = some recP ∧
      s.start_date = some sd ∧ parseDMYDash sd = some dt ∧ dt.date = fd :=
  (records_match_requested_date envEx reqEx [recP, recFblank] (by rfl)).1
    recP (by simp)

/-- Claim C4 (counterexample): the normalizer rejects ISO variants with and
without a trailing zone marker as well as space- and dash-delimited
variants, leaving a null start instant, so the code does not try the
claimed ordered list of several candidate patterns. -/
theorem iso_variants_not_parsed :
    parseDMYSlash "2024-12-25T14:30:00" = none ∧
    parseDMYSlash "2024-12-25T14:30:00Z" = none ∧
    parseDMYSlash "2024-12-25 14:30:00" = none ∧
    parseDMYSlash "25-12-2024 14:30:00" = none ∧
    processSession ⟨none, none, some "2024-12-25T14:30:00",
      some (UpVal.vstr "90")⟩ = ⟨none, none, none, none, none, 90⟩ :=
  ⟨rfl, rfl, rfl, rfl, rfl⟩

/-- Claim C4 (amended): the date normalizer tries exactly one pattern
(day/month/year with comma-separated time); when that single pattern fails
the start instant and derived end time are null while the session record
is still produced with its coerced duration (no error is escalated); when
it parses (and the shifted end is representable) it determines the
instant. -/
theorem single_pattern_normalizer (s : RawSession) (sd : String)
    (hs : s.start_date = some sd) :
    (parseDMYSlash sd = none →
      (processSession s).start_date = none ∧ (processSession s).end_date = none ∧
      (processSession s).duration_minutes =
        pyInt ((s.duration_minutes).getD (UpVal.vstr "0"))) ∧
    (∀ dt, parseDMYSlash sd = some dt →
      endInRange dt (pyInt ((s.duration_minutes).getD (UpVal.vstr "0"))) = true →
      (processSession s).start_date = some (formatDT dt) ∧
      (processSession s).end_date = some (formatDT (addMinutes dt
        (pyInt ((s.duration_minutes).getD (UpVal.vstr "0")))))) := by
  constructor
  · intro hp
    simp only [processSession, hs, hp]
    split
    · exact ⟨rfl, rfl, rfl⟩
    · exact ⟨rfl, rfl, rfl⟩
  · intro dt hp hr
    have he : ¬(sd = "") := by
      intro h0
      rw [h0] at hp
      have hnone : parseDMYSlash "" = none := rfl
      rw [hnone] at hp
      cases hp
    simp [processSession, hs, if_neg he, hp, hr]

/-- Witness for the amended C4: an unparseable start string yields a null
start and end but a well-formed session record. -/
theorem single_pattern_normalizer_witness :
    parseDMYSlash "not-a-date" = none ∧
    (processSession ⟨none, none, some "not-a-date", some (UpVal.vstr "45")⟩).start_date = none ∧
    (processSession ⟨none, none, some "not-a-date", some (UpVal.vstr "45")⟩).end_date = none ∧
    (processSession ⟨none, none, some "not-a-date", some (UpVal.vstr "45")⟩).duration_minutes =
      pyInt (((⟨none, none, some "not-a-date", some (UpVal.vstr "45")⟩ : RawSession)).duration_minutes.getD (UpVal.vstr "0")) :=
  ⟨rfl, (single_pattern_normalizer ⟨none, none, some "not-a-date", some (UpVal.vstr "45")⟩
    "not-a-date" rfl).1 rfl⟩

/-- Claim C7: for a session whose start parses, the derived end time is
the start plus the coerced integer duration, both rendered in the
canonical day-month-year 24-hour format; a missing duration key, a null
duration and a non-numeric duration string all coerce to 0. -/
theorem end_time_is_start_plus_duration (s : RawSession) (sd : String)
    (dt : DateTime) (hs : s.start_date = some sd)
    (hp : parseDMYSlash sd = some dt)
    (hr : endInRange dt (pyInt ((s.duration_minutes).getD (UpVal.vstr "0"))) = true) :
    processSession s = ⟨none, s.name, s.description, some (formatDT dt),
      some (formatDT (addMinutes dt (pyInt ((s.duration_minutes).getD (UpVal.vstr "0"))))),
      pyInt ((s.duration_minutes).getD (UpVal.vstr "0"))⟩ ∧
    (s.duration_minutes = none →
      pyInt ((s.duration_minutes).getD (UpVal.vstr "0")) = 0) ∧
    pyInt UpVal.vnull = 0 ∧
    (∀ t, parseIntString t = none → pyInt (UpVal.vstr t) = 0) := by
  have he : ¬(sd = "") := by
    intro h0
    rw [h0] at hp
    have hnone : parseDMYSlash "" = none := rfl
    rw [hnone] at hp
    cases hp
  refine ⟨?_, ?_, rfl, ?_⟩
  · simp [processSession, hs, if_neg he, hp, hr]
  · intro hd
    rw [hd]
    rfl
  · intro t ht
    simp [pyInt, ht]

/-- Witness for C7: the spec's concrete instance, start
25/12/2024, 14:30:00 with duration 90 rendered as 25-12-2024 14:30:00 and
25-12-2024 16:00:00. -/
theorem end_time_is_start_plus_duration_witness :
    processSession rawS = ⟨none, some "Morning", some "Desc",
      some "25-12-2024 14:30:00", some "25-12-2024 16:00:00", 90⟩ :=
  (end_time_is_start_plus_duration rawS "25/12/2024, 14:30:00"
    ⟨2024, 12, 25, 14, 30, 0⟩ rfl rfl rfl).1

/-- Claim C5 (counterexample): with successful lookups but an empty
instructor-led unit list, the endpoint returns an error response, HTTP 400
with the message in the error field, refuting that the result is not an
error. -/
theorem no_units_surfaced_as_error :
    get_data ⟨exCustomers, lmsNoU⟩ reqEx =
      ApiResult.err 400 "No \x27Instructor-led training\x27 units found." := rfl

/-- Claim C5 (amended): when the user, course and course-status lookups
succeed but no unit survives the instructor-led-training type filter, the
resolution short-circuits with the no-units message and performs no
session fetch (the outcome is identical under every session oracle), but
the message is surfaced through the error channel as a 400 response. -/
theorem no_units_short_circuits_as_400 (env : Env) (req : Request)
    (fd : Nat × Nat × Nat) (ub : UserBody) (ut : String) (c0 : CourseBody)
    (crest : List CourseBody) (ct : String) (sb : StatusBody) (st : String)
    (h1 : truthyStr req.api_key = true)
    (h2 : truthyStr (env.customers (req.api_key.getD "")) = true)
    (h3 : truthyStr req.org_emp_code = true)
    (h4 : truthyStr req.batch_id = true)
    (h5 : truthyStr req.attendanceDate = true)
    (h6 : parseYMD (req.attendanceDate.getD "") = some fd)
    (hu : env.lms.userResp = Except.ok ⟨200, ub, ut⟩)
    (hid : truthyOpt ub.id = true)
    (hc : env.lms.courseResp = Except.ok ⟨200, c0 :: crest, ct⟩)
    (hcid : truthyOpt c0.id = true)
    (hs : env.lms.statusResp = Except.ok ⟨200, sb, st⟩)
    (hempty : (sb.units.getD []).filter
      (fun uj => uj.utype == some "Instructor-led training") = []) :
    ∀ f, get_data ⟨env.customers, ⟨env.lms.userResp, env.lms.courseResp,
        env.lms.statusResp, f⟩⟩ req =
      ApiResult.err 400 "No \x27Instructor-led training\x27 units found." := by
  intro f
  refine get_data_of_fetch_msg _ req fd _ h1 h2 h3 h4 h5 h6 ?_
  exact fetch_no_units _ (req.org_emp_code.getD "") (req.batch_id.getD "")
    ub ut c0 crest ct sb st hu hid hc hcid hs hempty

/-- Witness for the amended C5: the concrete no-units environment yields
the 400 no-units error even under a session oracle that would fail if
consulted. -/
theorem no_units_short_circuits_as_400_witness :
    get_data ⟨exCustomers, ⟨lmsNoU.userResp, lmsNoU.courseResp,
        lmsNoU.statusResp, fNever⟩⟩ reqEx =
      ApiResult.err 400 "No \x27Instructor-led training\x27 units found." :=
  no_units_short_circuits_as_400 ⟨exCustomers, lmsNoU⟩ reqEx (2024, 12, 25)
    ⟨some (UpVal.vstr "U1")⟩ "" ⟨some (UpVal.vstr "C1")⟩ [] "" ⟨some [uE]⟩ ""
    (by decide) (by decide) (by decide) (by decide) (by decide) rfl
    rfl (by decide) rfl (by decide) rfl rfl fNever

/-- Claim C6 (counterexample): a 401 from the user lookup is surfaced with
HTTP status 400, not a 401-class status; and a 401 from a per-unit session
fetch does not short-circuit the resolution, which still returns a success
payload built from the other unit. -/
theorem upstream_401_surfaced_as_400 :
    get_data ⟨exCustomers, lms401⟩ reqEx =
      ApiResult.err 400 "Invalid API Key. Please provide a valid API Key." ∧
    get_data ⟨exCustomers, lmsS401⟩ reqEx =
      ApiResult.ok (Sum.inr [recFblank]) ∧
    (400 : Nat) ≠ 401 :=
  ⟨rfl, rfl, by decide⟩

/-- Claim C6 (amended): a 401 from the user lookup short-circuits the
resolution before any later upstream call, with the invalid-key message
surfaced as a 400 error rather than a 401-class one; a 401 from the course
or course-status lookup short-circuits with the generic upstream-error
message (also 400); a 401 from a per-unit session fetch does not
short-circuit the resolution: that unit merely contributes no records. -/
theorem upstream_401_behavior (env : Env) (req : Request)
    (fd : Nat × Nat × Nat)
    (h1 : truthyStr req.api_key = true)
    (h2 : truthyStr (env.customers (req.api_key.getD "")) = true)
    (h3 : truthyStr req.org_emp_code = true)
    (h4 : truthyStr req.batch_id = true)
    (h5 : truthyStr req.attendanceDate = true)
    (h6 : parseYMD (req.attendanceDate.getD "") = some fd) :
    (∀ ub ut, env.lms.userResp = Except.ok ⟨401, ub, ut⟩ →
      get_data env req =
        ApiResult.err 400 "Invalid API Key. Please provide a valid API Key.") ∧
    (∀ ub ut cb ct, env.lms.userResp = Except.ok ⟨200, ub, ut⟩ →
      truthyOpt ub.id = true →
      env.lms.courseResp = Except.ok ⟨401, cb, ct⟩ →
      get_data env req =
        ApiResult.err 400 ("Error fetching course details: 401, " ++ ct)) ∧
    (∀ ub ut c0 crest ct sb st, env.lms.userResp = Except.ok ⟨200, ub, ut⟩ →
      truthyOpt ub.id = true →
      env.lms.courseResp = Except.ok ⟨200, c0 :: crest, ct⟩ →
      truthyOpt c0.id = true →
      env.lms.statusResp = Except.ok ⟨401, sb, st⟩ →
      get_data env req =
        ApiResult.err 400 ("Error fetching user status in course: 401, " ++ st)) ∧
    (∀ u rb rt, env.lms.sessionsResp u.id = Except.ok ⟨401, rb, rt⟩ →
      unitRecords env.lms (req.org_emp_code.getD "") fd u = []) := by
  refine ⟨?_, ?_, ?_, ?_⟩
  · intro ub ut hu
    exact get_data_of_fetch_msg env req fd _ h1 h2 h3 h4 h5 h6
      (fetch_userResp_401 env.lms _ _ ub ut hu)
  · intro ub ut cb ct hu hid hc
    exact get_data_of_fetch_msg env req fd _ h1 h2 h3 h4 h5 h6
      (fetch_courseResp_401 env.lms _ _ ub ut cb ct hu hid hc)
  · intro ub ut c0 crest ct sb st hu hid hc hcid hs
    exact get_data_of_fetch_msg env req fd _ h1 h2 h3 h4 h5 h6
      (fetch_statusResp_401 env.lms _ _ ub ut c0 crest ct sb st hu hid hc hcid hs)
  · intro u rb rt hsr
    apply unitRecords_of_fetch_msg env.lms _ fd u
      "Invalid API Key. Please provide a valid API Key."
    unfold get_ilt_sessions_by_id
    rw [hsr]
    rfl

/-- Witness for the amended C6: the four behaviors at concrete
environments. -/
theorem upstream_401_behavior_witness :
    get_data ⟨exCustomers, lms401⟩ reqEx =
      ApiResult.err 400 "Invalid API Key. Please provide a valid API Key." ∧
    get_data ⟨exCustomers, lmsC401⟩ reqEx =
      ApiResult.err 400 ("Error fetching course details: 401, " ++ "unauth") ∧
    get_data ⟨exCustomers, lmsSt401⟩ reqEx =
      ApiResult.err 400 ("Error fetching user status in course: 401, " ++ "unauth") ∧
    unitRecords lmsS401 "S1" (2024, 12, 25) udP = [] := by
  refine ⟨?_, ?_, ?_, ?_⟩
  · exact (upstream_401_behavior ⟨exCustomers, lms401⟩ reqEx (2024, 12, 25)
      (by decide) (by decide) (by decide) (by decide) (by decide) rfl).1
      ⟨none⟩ "unauth" rfl
  · exact (upstream_401_behavior ⟨exCustomers, lmsC401⟩ reqEx (2024, 12, 25)
      (by decide) (by decide) (by decide) (by decide) (by decide) rfl).2.1
      ⟨some (UpVal.vstr "U1")⟩ "" [] "unauth" rfl (by decide) rfl
  · exact (upstream_401_behavior ⟨exCustomers, lmsSt401⟩ reqEx (2024, 12, 25)
      (by decide) (by decide) (by decide) (by decide) (by decide) rfl).2.2.1
      ⟨some (UpVal.vstr "U1")⟩ "" ⟨some (UpVal.vstr "C1")⟩ [] "" ⟨none⟩ "unauth"
      rfl (by decide) rfl (by decide) rfl
  · exact (upstream_401_behavior ⟨exCustomers, lmsS401⟩ reqEx (2024, 12, 25)
      (by decide) (by decide) (by decide) (by decide) (by decide) rfl).2.2.2
      udP [] "unauth" rfl

/-- Claim C8: a per-unit session-fetch failure is isolated: such a unit
contributes no records, while the overall request still reaches the
aggregation branch (a success response either way) in which the remaining
units' records appear. -/
theorem unit_fetch_failure_isolated (env : Env) (req : Request)
    (fd : Nat × Nat × Nat) (units : List UnitDict)
    (h1 : truthyStr req.api_key = true)
    (h2 : truthyStr (env.customers (req.api_key.getD "")) = true)
    (h3 : truthyStr req.org_emp_code = true)
    (h4 : truthyStr req.batch_id = true)
    (h5 : truthyStr req.attendanceDate = true)
    (h6 : parseYMD (req.attendanceDate.getD "") = some fd)
    (h7 : fetch_instructor_led_training env.lms (req.org_emp_code.getD "")
      (req.batch_id.getD "") = Sum.inr units) :
    (∀ u e, get_ilt_sessions_by_id (env.lms.sessionsResp u.id) u.id = Sum.inl e →
      unitRecords env.lms (req.org_emp_code.getD "") fd u = []) ∧
    get_data env req =
      (if ((units.map (unitRecords env.lms (req.org_emp_code.getD "") fd)).join).isEmpty
       then ApiResult.ok (Sum.inl ("No ILT sessions found for date " ++
         req.attendanceDate.getD ""))
       else ApiResult.ok (Sum.inr
         ((units.map (unitRecords env.lms (req.org_emp_code.getD "") fd)).join))) :=
  ⟨fun u e he => unitRecords_of_fetch_msg env.lms _ fd u e he,
   get_data_of_fetch_units env req fd units h1 h2 h3 h4 h5 h6 h7⟩

/-- Witness for C8: with the fetch for unit T1 raising a transport error,
T1 contributes nothing while the request still succeeds with the record of
the other unit. -/
theorem unit_fetch_failure_isolated_witness :
    unitRecords lmsBoom "S1" (2024, 12, 25) udP = [] ∧
    get_data ⟨exCustomers, lmsBoom⟩ reqEx =
      ApiResult.ok (Sum.inr [recFblank]) := by
  have h := unit_fetch_failure_isolated ⟨exCustomers, lmsBoom⟩ reqEx
    (2024, 12, 25) [udP, udF] (by decide) (by decide) (by decide) (by decide)
    (by decide) rfl rfl
  exact ⟨h.1 udP "An error occurred: boom" rfl, h.2.trans rfl⟩

/-- Inversion of key generation: a returned key was fresh in the store it
was generated against, and the new store appends exactly its active row. -/
theorem generate_api_key_spec (c : String) (cs : List String) :
    ∀ (db db2 : List KeyRow) (k : String),
      generate_api_key c cs db = some (k, db2) →
      hasKey db k = false ∧ db2 = db ++ [⟨c, k, true⟩] := by
  induction cs with
  | nil =>
    intro db db2 k h
    exact absurd h (by simp [generate_api_key])
  | cons k0 rest ih =>
    intro db db2 k h
    unfold generate_api_key at h
    by_cases hk : hasKey db k0 = true
    · rw [if_pos hk] at h
      exact ih db db2 k h
    · rw [if_neg hk] at h
      have h' := Option.some.inj h
      have h1 : k0 = k := congrArg Prod.fst h'
      have h2 : db ++ [⟨c, k0, true⟩] = db2 := congrArg Prod.snd h'
      subst h1
      exact ⟨Bool.eq_false_iff.mpr hk, h2.symm⟩

/-- Claim C9: the credential store never returns the same key from two
generation calls (a unique-key collision on insert retries with the next
freshly generated candidate until insertion succeeds), and verifying a key
that was never issued returns false. -/
theorem api_key_unique_and_verify (c1 c2 : String) (cs1 cs2 : List String)
    (db db1 db2 : List KeyRow) (k1 k2 : String)
    (hg1 : generate_api_key c1 cs1 db = some (k1, db1))
    (hg2 : generate_api_key c2 cs2 db1 = some (k2, db2)) :
    k1 ≠ k2 ∧ hasKey db k1 = false ∧ hasKey db1 k1 = true ∧
      (∀ k, hasKey db k = false → verify_api_key db k = false) := by
  obtain ⟨hf1, hdb1⟩ := generate_api_key_spec c1 cs1 db db1 k1 hg1
  obtain ⟨hf2, _⟩ := generate_api_key_spec c2 cs2 db1 db2 k2 hg2
  have hmem : hasKey db1 k1 = true := by
    rw [hdb1]
    simp [hasKey]
  refine ⟨?_, hf1, hmem, ?_⟩
  · intro hkk
    rw [hkk] at hmem
    rw [hmem] at hf2
    cases hf2
  · intro k hk
    unfold verify_api_key
    have hfind : db.find? (fun r => r.api_key == k) = none := by
      rw [List.find?_eq_none]
      intro r hr hbeq
      have hmem2 : hasKey db k = true := by
        unfold hasKey
        rw [List.any_eq_true]
        exact ⟨r, hr, hbeq⟩
      rw [hmem2] at hk
      cases hk
    rw [hfind]

/-- Witness for C9: generating on an empty store issues K1; a second call
whose first candidate collides with K1 retries and issues K2; verifying
the never-issued key on the empty store is false. -/
theorem api_key_unique_and_verify_witness :
    "K1" ≠ "K2" ∧ hasKey [] "K1" = false ∧
      hasKey [⟨"C1", "K1", true⟩] "K1" = true ∧
      (∀ k, hasKey [] k = false → verify_api_key [] k = false) :=
  api_key_unique_and_verify "C1" "C2" ["K1"] ["K1", "K2"] []
    [⟨"C1", "K1", true⟩] [⟨"C1", "K1", true⟩, ⟨"C2", "K2", true⟩] "K1" "K2"
    rfl rfl

/-- Claim C10: a 200 lookup whose id field is present but falsy (0, "",
null) is treated exactly like a missing id: the user path fails with the
user-id-not-found message and the course path with the
course-id-not-found message, independently of every later oracle state, so
no such identifier propagates. -/
theorem falsy_id_rejected (lms lms2 : LMS) (sid bid : String)
    (ub : UserBody) (ut : String) (ub2 : UserBody) (ut2 : String)
    (c0 : CourseBody) (crest : List CourseBody) (ct : String)
    (hu : lms.userResp = Except.ok ⟨200, ub, ut⟩)
    (hfalsy : truthyOpt ub.id = false)
    (hu2 : lms2.userResp = Except.ok ⟨200, ub2, ut2⟩)
    (hid2 : truthyOpt ub2.id = true)
    (hc2 : lms2.courseResp = Except.ok ⟨200, c0 :: crest, ct⟩)
    (hcfalsy : truthyOpt c0.id = false) :
    fetch_instructor_led_training lms sid bid =
      Sum.inl "User ID not found for the provided student_id." ∧
    fetch_instructor_led_training lms2 sid bid =
      Sum.inl "Course ID not found for the provided batch ID." := by
  constructor
  · unfold fetch_instructor_led_training
    rw [hu]
    simp only [hfalsy]
    rfl
  · unfold fetch_instructor_led_training
    rw [hu2, hc2]
    simp only [hid2, hcfalsy]
    rfl

/-- Witness for C10: id 0 on the user lookup and id "" on the course
lookup are both rejected with the not-found messages. -/
theorem falsy_id_rejected_witness :
    fetch_instructor_led_training lmsZeroId "S1" "B1" =
      Sum.inl "User ID not found for the provided student_id." ∧
    fetch_instructor_led_training lmsEmptyCourseId "S1" "B1" =
      Sum.inl "Course ID not found for the provided batch ID." :=
  falsy_id_rejected lmsZeroId lmsEmptyCourseId "S1" "B1"
    ⟨some (UpVal.vnum 0)⟩ "" ⟨some (UpVal.vstr "U1")⟩ ""
    ⟨some (UpVal.vstr "")⟩ [] ""
    rfl (by decide) rfl (by decide) rfl (by decide)
